import Mathlib

/-!
Shallow embedding of `src/lib/index.js` of skiff-dispatcher-smtp: a clustered
SMTP-connection affinity router.  Node identifiers, user names and tokens are
strings; the replicated cluster directory, the node-local LRU caches and the
single-flight callback queue are explicit data; every exported function of the
source is translated into a pure step function over that data, with the
asynchronous collaborators (random peer choice, token refresh, payload
transforms) passed in as explicit arguments.
-/

set_option autoImplicit false

namespace SkiffSMTP

abbrev NodeId := String

/-- Directory keys of the replicated cluster store: the special `leader` key
and operation keys derived from an operation name and a username, as built by
the dispatcher's `this.ok(operation, username)` helper. -/
inductive DirKey
  | leader
  | opk (operation : String) (username : String)
deriving DecidableEq, Repr

/-- Embedding of `this.ok(operation, username)`: the operation key under which
single-flight slots and directory pointers are scoped. -/
def ok (operation : String) (username : String) : DirKey :=
  DirKey.opk operation username

/-- Association-list lookup in the replicated directory. -/
def dirLookup : List (DirKey × NodeId) → DirKey → Option NodeId
  | [], _ => none
  | (j, n) :: rest, k => if k = j then some n else dirLookup rest k

/-- Removal of every binding of a key from the directory, used by
`cluster.set(key, null)`. -/
def dirErase : List (DirKey × NodeId) → DirKey → List (DirKey × NodeId)
  | [], _ => []
  | (j, n) :: rest, k => if j = k then dirErase rest k else (j, n) :: dirErase rest k

/-- Modelled from the spec: the gossip cluster object (`this.gossip.cluster` of
skiff-dispatcher, not under src/) exposing the replicated key/value store
`get`/`set` and the peer-liveness view used by `this.peerOnline`. -/
structure Cluster where
  dir : List (DirKey × NodeId)
  live : List NodeId
deriving DecidableEq, Repr

/-- Modelled from the spec: `cluster.get(key)` reads the replicated store. -/
def Cluster.get (c : Cluster) (k : DirKey) : Option NodeId :=
  dirLookup c.dir k

/-- Modelled from the spec: `cluster.set(key, value)`; setting `null` removes
the binding so a subsequent read returns absent. -/
def Cluster.set (c : Cluster) (k : DirKey) (v : Option NodeId) : Cluster :=
  match v with
  | none => ⟨dirErase c.dir k, c.live⟩
  | some n => ⟨(k, n) :: dirErase c.dir k, c.live⟩

/-- Modelled from the spec: `this.peerOnline(nodeId)` liveness query. -/
def Cluster.peerOnline (c : Cluster) (n : NodeId) : Bool :=
  c.live.contains n

/-- Modelled from the spec: the Single-Flight Registry (`this.callbackQueue`
of skiff-dispatcher, not under src/).  Each pending operation key holds the
callbacks registered while the operation is in flight. -/
structure CallbackQueue where
  pending : List (DirKey × List Nat)
deriving DecidableEq, Repr

/-- Modelled from the spec: `callbackQueue.add(key, cb)` returns a truthy
resolver exactly when no operation is pending for the key (the caller must
proceed); otherwise the callback is queued and a falsy value is returned. -/
def CallbackQueue.add (q : CallbackQueue) (k : DirKey) (cb : Nat) :
    Bool × CallbackQueue :=
  match q.pending.lookup k with
  | some waiters =>
    (false, ⟨(k, waiters ++ [cb]) :: q.pending.filter (fun p => p.1 ≠ k)⟩)
  | none => (true, ⟨(k, [cb]) :: q.pending⟩)

/-- Modelled from the spec: resolving a pending key returns all registered
waiters (in registration order) and clears the pending record. -/
def CallbackQueue.resolve (q : CallbackQueue) (k : DirKey) :
    List Nat × CallbackQueue :=
  match q.pending.lookup k with
  | some waiters => (waiters, ⟨q.pending.filter (fun p => p.1 ≠ k)⟩)
  | none => ([], q)

/-- Modelled from the spec: the resolver invokes every registered waiter with
one identical (error, value) pair `r`. -/
def CallbackQueue.resolveWith {α : Type} (q : CallbackQueue) (k : DirKey) (r : α) :
    List (Nat × α) × CallbackQueue :=
  (((q.resolve k).1).map (fun w => (w, r)), (q.resolve k).2)

/-- Value stored in `connectionCache` (source line 119): a plain object with
exactly the fields `it` (the nodemailer transport, identified by a numeric
handle), `cluster` (back-reference to the gossip cluster) and `key` (the
directory key to clear on disposal). -/
structure EvConn where
  it : Nat
  key : DirKey
deriving DecidableEq, Repr

/-- Fields present on the object stored in `connectionCache`; member access on
any other name yields `undefined` in the source. -/
def EvConn.hasMember (_e : EvConn) (m : String) : Bool :=
  m = "it" || m = "cluster" || m = "key"

/-- State of an xoauth2 generator instance (external xoauth2 object): its
identity, its current token and its `timer` field as read by the freshness
check of `generateOAuthCredentials`. -/
structure GenState where
  gid : Nat
  token : Option String
  timer : Option Int
deriving DecidableEq, Repr

/-- Value stored in `credentialsCache` (source line 198): a plain object with
fields `it` (the xoauth2 generator), `cluster` and `key`. -/
structure EvCred where
  it : GenState
  key : DirKey
deriving DecidableEq, Repr

/-- Bounded LRU cache (the external lru-cache module): an ordered association
list, most recently used first, evicting beyond `max` entries. -/
structure LRUCache (β : Type) where
  max : Nat
  entries : List (String × β)
deriving DecidableEq, Repr

/-- Cache read: a hit refreshes the entry's recency. -/
def LRUCache.get {β : Type} (c : LRUCache β) (k : String) :
    Option β × LRUCache β :=
  match c.entries.lookup k with
  | none => (none, c)
  | some v => (some v, ⟨c.max, (k, v) :: c.entries.filter (fun p => p.1 ≠ k)⟩)

/-- Cache write: inserts or replaces at the most-recent position and returns
the entries evicted by capacity pressure (the least recently used ones). -/
def LRUCache.set {β : Type} (c : LRUCache β) (k : String) (v : β) :
    LRUCache β × List (String × β) :=
  let l := (k, v) :: c.entries.filter (fun p => p.1 ≠ k)
  (⟨c.max, l.take c.max⟩, l.drop c.max)

/-- Disposal hook of `connectionCache` (source lines 28-31):
`connection.it.close(); connection.cluster.set(connection.key, null)`.  The
state pairs the cluster directory with the list of closed transport handles. -/
def connectionDispose (st : Cluster × List Nat) (e : EvConn) : Cluster × List Nat :=
  (Cluster.set st.1 e.key none, e.it :: st.2)

/-- Disposal hook of `credentialsCache` (source lines 36-38):
`credentials.cluster.set(credentials.key, null)` — the pointer is cleared and
nothing else is released. -/
def credentialsDispose (st : Cluster × List Nat) (e : EvCred) : Cluster × List Nat :=
  (Cluster.set st.1 e.key none, st.2)

/-- Runs the connection disposal hook over every entry evicted by a cache
write. -/
def disposeAllConn : List (String × EvConn) → Cluster × List Nat → Cluster × List Nat
  | [], st => st
  | (_, e) :: rest, st => disposeAllConn rest (connectionDispose st e)

/-- Runs the credentials disposal hook over every entry evicted by a cache
write. -/
def disposeAllCred : List (String × EvCred) → Cluster × List Nat → Cluster × List Nat
  | [], st => st
  | (_, e) :: rest, st => disposeAllCred rest (credentialsDispose st e)

/-- Result of a cache write together with its disposal side effects. -/
structure CacheSetOut (β : Type) where
  cache : LRUCache β
  cluster : Cluster
  released : List Nat
deriving Repr

/-- A `connectionCache.set` including the disposal side effects on the evicted
entries. -/
def connectionCacheSet (cluster : Cluster) (released : List Nat)
    (c : LRUCache EvConn) (k : String) (v : EvConn) : CacheSetOut EvConn :=
  let s := c.set k v
  let st := disposeAllConn s.2 (cluster, released)
  ⟨s.1, st.1, st.2⟩

/-- A `credentialsCache.set` including the disposal side effects on the
evicted entries. -/
def credentialsCacheSet (cluster : Cluster) (released : List Nat)
    (c : LRUCache EvCred) (k : String) (v : EvCred) : CacheSetOut EvCred :=
  let s := c.set k v
  let st := disposeAllCred s.2 (cluster, released)
  ⟨s.1, st.1, st.2⟩

/-- The `connectionCache` as constructed at source line 25 — empty, bounded by
1000 entries. -/
def connectionCacheInit : LRUCache EvConn := ⟨1000, []⟩

/-- The `credentialsCache` as constructed at source line 34 — empty, bounded by
10000 entries. -/
def credentialsCacheInit : LRUCache EvCred := ⟨10000, []⟩

/-- Synchronous actions taken by `getSMTPConnection` (source lines 52-96),
one constructor per `return` path. -/
inductive ConnAction
  | queuedWait
  | establishLocalForced
  | forwardToLeader (leader : Option NodeId)
  | respond (n : NodeId)
  | establishLocalSelfOwner
  | remoteEstablish (peer : NodeId)
  | establishLocalAssigned
deriving DecidableEq, Repr

/-- Embedding of `getSMTPConnection` (source lines 52-96) up to its first
suspension: given the node's id, the cluster view, the local single-flight
queue, the request (username, force) and the node returned by
`this.randomPeerOrSelf()`, it yields the action taken and the updated queue.
In the assignment branch (lines 87-95) the source stores the result of
`callbackQueue.add` but does not test it before selecting a peer. -/
def getSMTPConnectionStep (selfId : NodeId) (cluster : Cluster)
    (q : CallbackQueue) (username : String) (force : Bool)
    (randomPeer : NodeId) (cb : Nat) : ConnAction × CallbackQueue :=
  let currentLeader := Cluster.get cluster DirKey.leader
  let operationKey := ok "getSMTPConnection" username
  if force then
    let a := CallbackQueue.add q operationKey cb
    if a.1 then (ConnAction.establishLocalForced, a.2)
    else (ConnAction.queuedWait, a.2)
  else if currentLeader ≠ some selfId then
    (ConnAction.forwardToLeader currentLeader, q)
  else
    let assign :=
      let a := CallbackQueue.add q operationKey cb
      if randomPeer ≠ selfId then (ConnAction.remoteEstablish randomPeer, a.2)
      else (ConnAction.establishLocalAssigned, a.2)
    match Cluster.get cluster operationKey with
    | some n =>
      if Cluster.peerOnline cluster n then (ConnAction.respond n, q)
      else if n = selfId then (ConnAction.establishLocalSelfOwner, q)
      else assign
    | none => assign

/-- Node-local state used by the connection path: the single-flight queue and
this node's `connectionCache`. -/
structure NodeState where
  q : CallbackQueue
  connCache : LRUCache EvConn
deriving DecidableEq, Repr

/-- Outcome of the synchronous prefix of `establishSMTPConnection`. -/
structure EstablishSyncOut where
  ns : NodeState
  cluster : Cluster
  released : List Nat
  created : Nat
deriving DecidableEq, Repr

/-- Embedding of the synchronous prefix of `establishSMTPConnection` (source
lines 104-124) up to its suspension at `getSMTPCredentials`: single-flight
registration guarded by `if (!callback) return`, cache lookup, and on a miss
the construction of a new transport identified by `connId`, cached as the
wrapper `{it, cluster, key}`.  `created` counts transports constructed by
this call. -/
def establishSMTPConnectionStep (cluster : Cluster) (ns : NodeState)
    (username : String) (connId cb : Nat) : EstablishSyncOut :=
  let operationKey := ok "establishSMTPConnection" username
  let a := CallbackQueue.add ns.q operationKey cb
  if a.1 then
    let got := ns.connCache.get username
    match got.1 with
    | some _ => ⟨⟨a.2, got.2⟩, cluster, [], 0⟩
    | none =>
      let s := connectionCacheSet cluster [] got.2 username
        ⟨connId, ok "getSMTPConnection" username⟩
      ⟨⟨a.2, s.cache⟩, s.cluster, s.released, 1⟩
  else ⟨⟨a.2, ns.connCache⟩, cluster, [], 0⟩

/-- Values passed in node-style `(err, value)` callback argument slots:
`nullVal` is JS `null`, `errorObj` an Error object, `credsObj` the object
`_.pick(credentials, ['user', 'pass'])`, `tokenObj` the object
`{user, xoauth2}`. -/
inductive JsArg
  | nullVal
  | errorObj (msg : String)
  | credsObj (user pass : Option String)
  | tokenObj (user token : String)
deriving DecidableEq, Repr

/-- JS truthiness of an argument slot: a missing slot is `undefined`; among
the values above only `null` and `undefined` are falsy. -/
def jsTruthy : Option JsArg → Bool
  | none => false
  | some JsArg.nullVal => false
  | some _ => true

/-- The JS receiver bound when a continuation is invoked: the dispatcher
itself, whose `id` field is the node id, or the handle that `setImmediate`
binds, which has no `id` field. -/
inductive ThisCtx
  | dispatcher (id : NodeId)
  | immediate
deriving DecidableEq, Repr

/-- Reading `this.id` on the bound receiver. -/
def thisCtxId : ThisCtx → Option NodeId
  | ThisCtx.dispatcher i => some i
  | ThisCtx.immediate => none

/-- Outcome of an `establishSMTPConnection` call once its credentials
continuation has run. -/
inductive EstablishResult
  | queuedBehindPending
  | suspended
  | failed (e : JsArg)
  | succeeded (authSet : Option JsArg) (responded : Option NodeId)
deriving DecidableEq, Repr

/-- Embedding of the continuation `receivedCredentials` (source lines
126-134): a truthy first argument aborts with that error; otherwise
`connection.auth` is assigned the second argument and the resolver is invoked
with `(null, this.id)`, where `this` is whatever receiver the credentials
path bound when invoking the continuation. -/
def receivedCredentials (ctx : ThisCtx) (args : List JsArg) : EstablishResult :=
  if jsTruthy args.head? then
    EstablishResult.failed (Option.getD args.head? JsArg.nullVal)
  else
    EstablishResult.succeeded (List.head? (args.drop 1)) (thisCtxId ctx)

/-- Actions taken by `getSMTPCredentials`, one constructor per `return`
path: a `setImmediate(next, ...)` invocation with the given argument list, a
method call on the dispatcher by name, or a remote call. -/
inductive CredAction
  | callNext (args : List JsArg)
  | callDispatcherMethod (m : String)
  | remoteGenerate (node : NodeId)
  | forwardCredsToLeader (leader : Option NodeId)
deriving DecidableEq, Repr

/-- Embedding of `getSMTPCredentials` (source lines 231-272): returns the
action taken, the updated single-flight queue and the number of network calls
this step performs (remote calls; the static and unsupported branches invoke
`setImmediate` only).  In the leader assignment branch (lines 254-262) the
source stores the result of `callbackQueue.add` without testing it.  The
gmail branches call the dispatcher method named `generateGmailCredentials`,
the name the source uses at lines 239 and 262. -/
def getSMTPCredentialsStep (selfId : NodeId) (cluster : Cluster)
    (q : CallbackQueue) (credCache : LRUCache EvCred)
    (username provider : String) (user pass : Option String)
    (randomPeer : NodeId) (cb : Nat) : CredAction × CallbackQueue × Nat :=
  if provider = "gmail" then
    match (credCache.get username).1 with
    | some _ => (CredAction.callDispatcherMethod "generateGmailCredentials", q, 0)
    | none =>
      let rest :=
        let currentLeader := Cluster.get cluster DirKey.leader
        if currentLeader ≠ some selfId then
          (CredAction.forwardCredsToLeader currentLeader, q, 1)
        else
          let a := CallbackQueue.add q (ok "getSMTPCredentials" username) cb
          if randomPeer ≠ selfId then (CredAction.remoteGenerate randomPeer, a.2, 1)
          else (CredAction.callDispatcherMethod "generateGmailCredentials", a.2, 0)
      match Cluster.get cluster (ok "generateOAuthCredentials" username) with
      | some credentialsNodeId =>
        if Cluster.peerOnline cluster credentialsNodeId then
          (CredAction.remoteGenerate credentialsNodeId, q, 1)
        else rest
      | none => rest
  else if provider = "yahoo" ∨ provider = "aol" then
    (CredAction.callNext [JsArg.credsObj user pass], q, 0)
  else
    (CredAction.callNext [JsArg.errorObj "passed provider is not supported"], q, 0)

/-- JS falsiness of the generator's `timer` field: `undefined` or `0`. -/
def jsFalsyInt : Option Int → Bool
  | none => true
  | some t => t == 0

/-- Numeric value of the `timer` field, `0` when unset. -/
def timerVal : Option Int → Int
  | none => 0
  | some t => t

/-- Embedding of the freshness test at source line 209:
`xoauth2Instance.token && (!xoauth2Instance.timer ||
xoauth2Instance.timer > Date.now() - 1000 * 60 * 5)`. -/
def tokenFresh (g : GenState) (now : Int) : Bool :=
  g.token.isSome && (jsFalsyInt g.timer || decide (now - 1000 * 60 * 5 < timerVal g.timer))

/-- Outcome of a `generateOAuthCredentials` call: the updated cluster view,
queue and cache, the `(error, value)` result delivered to the resolver (none
while queued behind a pending call), and the number of `generateToken`
invocations. -/
structure GenStepOut where
  cluster : Cluster
  q : CallbackQueue
  cache : LRUCache EvCred
  result : Option (Except String (String × String))
  refreshCalls : Nat
deriving Repr

/-- Embedding of source lines 207-219: the directory pointer for the
operation key is set to this node unconditionally, then the freshness check
either returns the cached token as `{user, xoauth2}` with no refresh, or
invokes `xoauth2Instance.generateToken` once, forwarding its error or
wrapping its token. -/
def generateOAuthFinish (selfId : NodeId) (cluster : Cluster)
    (q2 : CallbackQueue) (cache2 : LRUCache EvCred) (username : String)
    (inst : GenState) (now : Int) (refreshOutcome : Except String String) :
    GenStepOut :=
  let cluster2 := Cluster.set cluster (ok "generateOAuthCredentials" username) (some selfId)
  if tokenFresh inst now then
    ⟨cluster2, q2, cache2, some (Except.ok (username, Option.getD inst.token "")), 0⟩
  else
    match refreshOutcome with
    | Except.error e => ⟨cluster2, q2, cache2, some (Except.error e), 1⟩
    | Except.ok tok => ⟨cluster2, q2, cache2, some (Except.ok (username, tok)), 1⟩

/-- Embedding of `generateOAuthCredentials` (source lines 183-220):
single-flight registration guarded by `if (!callback) return`, then cache
lookup; a miss constructs a fresh generator (identified by `freshGid`, with
no token) and caches the wrapper `{it, cluster, key}`, a hit unwraps the
cached generator; then `generateOAuthFinish`.  The token-refresh primitive is
external: its outcome is the `refreshOutcome` argument. -/
def generateOAuthCredentialsStep (selfId : NodeId) (cluster : Cluster)
    (q : CallbackQueue) (cache : LRUCache EvCred) (username : String)
    (now : Int) (freshGid cb : Nat) (refreshOutcome : Except String String) :
    GenStepOut :=
  let operationKey := ok "generateOAuthCredentials" username
  let a := CallbackQueue.add q operationKey cb
  if a.1 then
    let got := cache.get username
    match got.1 with
    | none =>
      let g : GenState := ⟨freshGid, none, none⟩
      let s := credentialsCacheSet cluster [] got.2 username ⟨g, operationKey⟩
      generateOAuthFinish selfId s.cluster a.2 s.cache username g now refreshOutcome
    | some e =>
      generateOAuthFinish selfId cluster a.2 got.2 username e.it now refreshOutcome
  else ⟨cluster, a.2, cache, none, 0⟩

/-- Embedding of `connectionCallback` (source lines 58-65): an error is
forwarded to the resolver untouched and nothing is published; a node id
answer publishes the directory pointer for the operation key, then is
forwarded. -/
def connectionCallback (cluster : Cluster) (operationKey : DirKey)
    (r : Except String NodeId) : Cluster × Except String NodeId :=
  match r with
  | Except.error e => (cluster, Except.error e)
  | Except.ok nodeId => (Cluster.set cluster operationKey (some nodeId), Except.ok nodeId)

/-- Composition of `establishSMTPConnection` with the static-provider branch
of `getSMTPCredentials`: the synchronous prefix runs, then the credentials
path invokes the continuation via `setImmediate`, so `receivedCredentials`
runs with the timer handle as receiver.  Non-immediate credential actions
leave the call suspended. -/
def establishStaticRun (selfId : NodeId) (cluster : Cluster) (ns : NodeState)
    (credCache : LRUCache EvCred) (username provider : String)
    (user pass : Option String) (connId cb : Nat) :
    EstablishResult × EstablishSyncOut :=
  let e := establishSMTPConnectionStep cluster ns username connId cb
  let r :=
    if (CallbackQueue.add ns.q (ok "establishSMTPConnection" username) cb).1 then
      match (getSMTPCredentialsStep selfId e.cluster e.ns.q credCache username
          provider user pass selfId cb).1 with
      | CredAction.callNext args => receivedCredentials ThisCtx.immediate args
      | _ => EstablishResult.suspended
    else EstablishResult.queuedBehindPending
  (r, e)

/-- Outcome of the local branch of `sendMail`. -/
inductive SendOutcome
  | forwarded (node : Option NodeId) (username : String) (options : Nat)
  | typeErrorNoMethod (m : String)
  | prepareFailed (e : JsArg)
  | sentOnTransport (t : Nat)
deriving DecidableEq, Repr

/-- The call `connection.sendMail(email, next)` (source lines 162 and 170):
`sendMail` is looked up as a member of the cached value — the wrapper object
stored at line 119 — and a missing member is `undefined`, so calling it
raises a TypeError. -/
def cachedValueSendMail (connection : Option EvConn) : SendOutcome :=
  match connection with
  | none => SendOutcome.typeErrorNoMethod "sendMail"
  | some e =>
    if e.hasMember "sendMail" then SendOutcome.sentOnTransport e.it
    else SendOutcome.typeErrorNoMethod "sendMail"

/-- Embedding of the continuation of `sendMail` (source lines 149-173) once
`getSMTPConnection` has answered `nodeId`: a different owner gets the whole
request forwarded unchanged; otherwise the cached value for the username is
fetched and `sendMail` invoked on it, after running the named prepare
transform when one is given and is a function on the dispatcher. -/
def sendMailLocalStep (selfId : NodeId) (nodeId : Option NodeId)
    (connCache : LRUCache EvConn) (username : String)
    (prepareEmailFunctionName : Option String) (registered : String → Bool)
    (prepareOutcome : Except JsArg Nat) (options : Nat) : SendOutcome :=
  if some selfId ≠ nodeId then SendOutcome.forwarded nodeId username options
  else
    let connection := (connCache.get username).1
    match prepareEmailFunctionName with
    | none => cachedValueSendMail connection
    | some fn =>
      if registered fn then
        match prepareOutcome with
        | Except.error e => SendOutcome.prepareFailed e
        | Except.ok _ => cachedValueSendMail connection
      else cachedValueSendMail connection

/-- The names defined on the module's `exports` object: the five exported
operation functions and `init`.  The name `generateGmailCredentials` is
referenced in the source (lines 239, 262 and 285) but never defined, so
looking it up yields none (`undefined`). -/
inductive ExportedFn
  | getSMTPConnection
  | establishSMTPConnection
  | getSMTPCredentials
  | generateOAuthCredentials
  | sendMail
  | initFn
deriving DecidableEq, Repr

/-- Property lookup on the module's `exports` object. -/
def moduleExports (name : String) : Option ExportedFn :=
  if name = "getSMTPConnection" then some ExportedFn.getSMTPConnection
  else if name = "establishSMTPConnection" then some ExportedFn.establishSMTPConnection
  else if name = "getSMTPCredentials" then some ExportedFn.getSMTPCredentials
  else if name = "generateOAuthCredentials" then some ExportedFn.generateOAuthCredentials
  else if name = "sendMail" then some ExportedFn.sendMail
  else if name = "init" then some ExportedFn.initFn
  else none

/-- Embedding of `init` (source lines 278-287): the remote-call registry
bindings installed by `Dispatcher.attachRemoteCall`, each pairing an exposed
operation name with the module property the source passes for it — line 285
passes `exports.generateGmailCredentials` under the name
`generateOAuthCredentials`. -/
def initRegistry : List (String × Option ExportedFn) :=
  [("getSMTPConnection", moduleExports "getSMTPConnection"),
   ("establishSMTPConnection", moduleExports "establishSMTPConnection"),
   ("getSMTPCredentials", moduleExports "getSMTPCredentials"),
   ("generateOAuthCredentials", moduleExports "generateGmailCredentials"),
   ("sendMail", moduleExports "sendMail")]

/-- Cluster for the concurrent-acquisition scenario: node L is the leader,
nodes L and P are online, no operation pointer exists yet. -/
def c1Cluster : Cluster := ⟨[(DirKey.leader, "L")], ["L", "P"]⟩

/-- Two acquisition requests for user bob reach the leader L before either
completes: the first (random choice L) is assigned locally and starts an
establish on L; the second arrives while that establish is in flight and no
pointer has been published, and (random choice P) triggers a remote forced
establish on P.  Returns the total transports created on L and P and the two
routing actions taken. -/
def c1ConcurrentAcquisitions : Nat × ConnAction × ConnAction :=
  let nsL : NodeState := ⟨⟨[]⟩, connectionCacheInit⟩
  let nsP : NodeState := ⟨⟨[]⟩, connectionCacheInit⟩
  let s1 := getSMTPConnectionStep "L" c1Cluster nsL.q "bob" false "L" 1
  let e1 := establishSMTPConnectionStep c1Cluster ⟨s1.2, nsL.connCache⟩ "bob" 101 11
  let s2 := getSMTPConnectionStep "L" e1.cluster e1.ns.q "bob" false "P" 2
  let e2 := establishSMTPConnectionStep e1.cluster nsP "bob" 102 12
  (e1.created + e2.created, s1.1, s2.1)

theorem dirLookup_dirErase_self (l : List (DirKey × NodeId)) (k : DirKey) :
    dirLookup (dirErase l k) k = none := by
  induction l with
  | nil => rfl
  | cons hd tl ih =>
    obtain ⟨j', n⟩ := hd
    by_cases h : j' = k
    · simp [dirErase, h, ih]
    · simp [dirErase, dirLookup, h, Ne.symm h, ih]

theorem dirLookup_dirErase_ne (l : List (DirKey × NodeId)) (j k : DirKey)
    (hkj : k ≠ j) : dirLookup (dirErase l j) k = dirLookup l k := by
  induction l with
  | nil => rfl
  | cons hd tl ih =>
    obtain ⟨j', n⟩ := hd
    by_cases h : j' = j
    · subst h
      simp [dirErase, dirLookup, hkj, ih]
    · by_cases h2 : k = j'
      · simp [dirErase, dirLookup, h, h2]
      · simp [dirErase, dirLookup, h, h2, ih]

theorem cluster_get_set_none (c : Cluster) (j k : DirKey) :
    Cluster.get (Cluster.set c j none) k = if k = j then none else Cluster.get c k := by
  by_cases h : k = j
  · subst h
    simp [Cluster.get, Cluster.set, dirLookup_dirErase_self]
  · simp [Cluster.get, Cluster.set, h, dirLookup_dirErase_ne _ _ _ h]

theorem disposeAllConn_get_none (l : List (String × EvConn))
    (st : Cluster × List Nat) (k : DirKey) (h : Cluster.get st.1 k = none) :
    Cluster.get (disposeAllConn l st).1 k = none := by
  induction l generalizing st with
  | nil => exact h
  | cons hd tl ih =>
    obtain ⟨s, e⟩ := hd
    refine ih _ ?_
    simp only [connectionDispose, cluster_get_set_none]
    split
    · rfl
    · exact h

theorem disposeAllConn_clears (l : List (String × EvConn))
    (st : Cluster × List Nat) (p : String × EvConn) (hp : p ∈ l) :
    Cluster.get (disposeAllConn l st).1 p.2.key = none := by
  induction l generalizing st with
  | nil => cases hp
  | cons hd tl ih =>
    obtain ⟨s, e⟩ := hd
    rcases List.mem_cons.mp hp with h | h
    · subst h
      have h0 : Cluster.get (connectionDispose st (s, e).2).1 (s, e).2.key = none := by
        simp [connectionDispose, cluster_get_set_none]
      exact disposeAllConn_get_none tl (connectionDispose st (s, e).2) (s, e).2.key h0
    · exact ih _ h

theorem disposeAllConn_released_mono (l : List (String × EvConn))
    (st : Cluster × List Nat) (x : Nat) (hx : x ∈ st.2) :
    x ∈ (disposeAllConn l st).2 := by
  induction l generalizing st with
  | nil => exact hx
  | cons hd tl ih =>
    obtain ⟨s, e⟩ := hd
    exact ih _ (List.mem_cons_of_mem _ hx)

theorem disposeAllConn_releases (l : List (String × EvConn))
    (st : Cluster × List Nat) (p : String × EvConn) (hp : p ∈ l) :
    p.2.it ∈ (disposeAllConn l st).2 := by
  induction l generalizing st with
  | nil => cases hp
  | cons hd tl ih =>
    obtain ⟨s, e⟩ := hd
    rcases List.mem_cons.mp hp with h | h
    · subst h
      exact disposeAllConn_released_mono tl (connectionDispose st (s, e).2) (s, e).2.it
        (List.mem_cons_self _ _)
    · exact ih _ h

theorem disposeAllCred_get_none (l : List (String × EvCred))
    (st : Cluster × List Nat) (k : DirKey) (h : Cluster.get st.1 k = none) :
    Cluster.get (disposeAllCred l st).1 k = none := by
  induction l generalizing st with
  | nil => exact h
  | cons hd tl ih =>
    obtain ⟨s, e⟩ := hd
    refine ih _ ?_
    simp only [credentialsDispose, cluster_get_set_none]
    split
    · rfl
    · exact h

theorem disposeAllCred_clears (l : List (String × EvCred))
    (st : Cluster × List Nat) (p : String × EvCred) (hp : p ∈ l) :
    Cluster.get (disposeAllCred l st).1 p.2.key = none := by
  induction l generalizing st with
  | nil => cases hp
  | cons hd tl ih =>
    obtain ⟨s, e⟩ := hd
    rcases List.mem_cons.mp hp with h | h
    · subst h
      have h0 : Cluster.get (credentialsDispose st (s, e).2).1 (s, e).2.key = none := by
        simp [credentialsDispose, cluster_get_set_none]
      exact disposeAllCred_get_none tl (credentialsDispose st (s, e).2) (s, e).2.key h0
    · exact ih _ h

theorem disposeAllCred_released_eq (l : List (String × EvCred))
    (st : Cluster × List Nat) : (disposeAllCred l st).2 = st.2 := by
  induction l generalizing st with
  | nil => rfl
  | cons hd tl ih =>
    obtain ⟨s, e⟩ := hd
    exact ih _

/-- C3 counterexample — evicting an entry from the credentials cache (here by
capacity overflow at a one-slot cache state) runs a disposal hook that
releases nothing: the evicted generator's object is not closed, contradicting
the claim that the hook of either cache both releases the underlying object
and clears the pointer. -/
theorem credentialsDispose_releases_nothing :
    (LRUCache.set (⟨1, [("u0", ⟨⟨7, none, none⟩, ok "generateOAuthCredentials" "u0"⟩)]⟩ :
        LRUCache EvCred) "u1"
        ⟨⟨8, none, none⟩, ok "generateOAuthCredentials" "u1"⟩).2
      = [("u0", ⟨⟨7, none, none⟩, ok "generateOAuthCredentials" "u0"⟩)] ∧
    (credentialsCacheSet ⟨[(ok "generateOAuthCredentials" "u0", "n1")], []⟩ []
        (⟨1, [("u0", ⟨⟨7, none, none⟩, ok "generateOAuthCredentials" "u0"⟩)]⟩ :
          LRUCache EvCred) "u1"
        ⟨⟨8, none, none⟩, ok "generateOAuthCredentials" "u1"⟩).released = [] := by
  constructor
  · rfl
  · rfl

/-- C3 (amended) — every entry evicted from the connection cache has its
transport closed and its directory key cleared, while every entry evicted from
the credentials cache only has its directory key cleared: the credentials
disposal hook releases nothing. -/
theorem cache_eviction_dispose
    (cluster1 cluster2 : Cluster) (rel1 rel2 : List Nat)
    (cc : LRUCache EvConn) (dc : LRUCache EvCred) (k1 k2 : String)
    (v : EvConn) (w : EvCred) (pe : String × EvConn) (pf : String × EvCred)
    (he : pe ∈ (cc.set k1 v).2) (hf : pf ∈ (dc.set k2 w).2) :
    Cluster.get (connectionCacheSet cluster1 rel1 cc k1 v).cluster pe.2.key = none ∧
    pe.2.it ∈ (connectionCacheSet cluster1 rel1 cc k1 v).released ∧
    Cluster.get (credentialsCacheSet cluster2 rel2 dc k2 w).cluster pf.2.key = none ∧
    (credentialsCacheSet cluster2 rel2 dc k2 w).released = rel2 := by
  refine ⟨?_, ?_, ?_, ?_⟩
  · exact disposeAllConn_clears _ _ _ he
  · exact disposeAllConn_releases _ _ _ he
  · exact disposeAllCred_clears _ _ _ hf
  · exact disposeAllCred_released_eq _ _

/-- Witness for the amended C3: concrete one-slot caches overflow, the evicted
connection's transport 7 is closed and both directory keys read absent, while
the credentials eviction releases nothing. -/
theorem cache_eviction_dispose_witness :
    (("u0", (⟨7, ok "getSMTPConnection" "u0"⟩ : EvConn)) ∈
      (LRUCache.set (⟨1, [("u0", ⟨7, ok "getSMTPConnection" "u0"⟩)]⟩ : LRUCache EvConn)
        "u1" ⟨8, ok "getSMTPConnection" "u1"⟩).2) ∧
    Cluster.get (connectionCacheSet ⟨[(ok "getSMTPConnection" "u0", "n1")], []⟩ []
        (⟨1, [("u0", ⟨7, ok "getSMTPConnection" "u0"⟩)]⟩ : LRUCache EvConn)
        "u1" ⟨8, ok "getSMTPConnection" "u1"⟩).cluster (ok "getSMTPConnection" "u0") = none ∧
    7 ∈ (connectionCacheSet ⟨[(ok "getSMTPConnection" "u0", "n1")], []⟩ []
        (⟨1, [("u0", ⟨7, ok "getSMTPConnection" "u0"⟩)]⟩ : LRUCache EvConn)
        "u1" ⟨8, ok "getSMTPConnection" "u1"⟩).released ∧
    Cluster.get (credentialsCacheSet ⟨[(ok "generateOAuthCredentials" "u0", "n1")], []⟩ []
        (⟨1, [("u0", ⟨⟨7, none, none⟩, ok "generateOAuthCredentials" "u0"⟩)]⟩ : LRUCache EvCred)
        "u1" ⟨⟨8, none, none⟩, ok "generateOAuthCredentials" "u1"⟩).cluster
        (ok "generateOAuthCredentials" "u0") = none ∧
    (credentialsCacheSet ⟨[(ok "generateOAuthCredentials" "u0", "n1")], []⟩ []
        (⟨1, [("u0", ⟨⟨7, none, none⟩, ok "generateOAuthCredentials" "u0"⟩)]⟩ : LRUCache EvCred)
        "u1" ⟨⟨8, none, none⟩, ok "generateOAuthCredentials" "u1"⟩).released = [] := by
  refine ⟨by decide, ?_⟩
  have h := cache_eviction_dispose
    ⟨[(ok "getSMTPConnection" "u0", "n1")], []⟩
    ⟨[(ok "generateOAuthCredentials" "u0", "n1")], []⟩ [] []
    ⟨1, [("u0", ⟨7, ok "getSMTPConnection" "u0"⟩)]⟩
    ⟨1, [("u0", ⟨⟨7, none, none⟩, ok "generateOAuthCredentials" "u0"⟩)]⟩
    "u1" "u1" ⟨8, ok "getSMTPConnection" "u1"⟩ ⟨⟨8, none, none⟩, ok "generateOAuthCredentials" "u1"⟩
    ("u0", ⟨7, ok "getSMTPConnection" "u0"⟩)
    ("u0", ⟨⟨7, none, none⟩, ok "generateOAuthCredentials" "u0"⟩)
    (by decide) (by decide)
  exact h

/-- C5 — on the leader, a directory pointer to a live peer is answered with
that peer's id directly with no new work, while a pointer to a dead peer is
treated as absent: the request runs a fresh assignment (local establish or a
remote forced establish at the randomly selected node) and never responds with
the dead node's id nor with an error. -/
theorem getSMTPConnection_ownership_routing
    (selfId p d randomPeer : NodeId) (c1 c2 : Cluster) (q1 q2 : CallbackQueue)
    (u : String) (cb : Nat)
    (h1L : Cluster.get c1 DirKey.leader = some selfId)
    (h1p : Cluster.get c1 (ok "getSMTPConnection" u) = some p)
    (h1on : Cluster.peerOnline c1 p = true)
    (h2L : Cluster.get c2 DirKey.leader = some selfId)
    (h2d : Cluster.get c2 (ok "getSMTPConnection" u) = some d)
    (h2off : Cluster.peerOnline c2 d = false)
    (h2ne : d ≠ selfId) :
    getSMTPConnectionStep selfId c1 q1 u false randomPeer cb
      = (ConnAction.respond p, q1) ∧
    getSMTPConnectionStep selfId c2 q2 u false randomPeer cb
      = (if randomPeer ≠ selfId then ConnAction.remoteEstablish randomPeer
         else ConnAction.establishLocalAssigned,
         (CallbackQueue.add q2 (ok "getSMTPConnection" u) cb).2) := by
  constructor
  · simp only [getSMTPConnectionStep, h1L, h1p, h1on, ne_eq, not_true_eq_false,
      if_false, ite_false, if_neg, Bool.false_eq_true]
    simp
  · simp only [getSMTPConnectionStep, h2L, h2d, h2off, ne_eq, h2ne]
    simp [h2ne]
    split
    · rfl
    · rfl

/-- Witness for C5: a two-node cluster where the pointer names the live peer
n2 (answered directly), and one where it names the dead node n3 (fresh
assignment to the random peer n2). -/
theorem getSMTPConnection_ownership_routing_witness :
    getSMTPConnectionStep "n1" ⟨[(DirKey.leader, "n1"), (ok "getSMTPConnection" "bob", "n2")], ["n2"]⟩
        ⟨[]⟩ "bob" false "n2" 1
      = (ConnAction.respond "n2", ⟨[]⟩) ∧
    getSMTPConnectionStep "n1" ⟨[(DirKey.leader, "n1"), (ok "getSMTPConnection" "bob", "n3")], ["n2"]⟩
        ⟨[]⟩ "bob" false "n2" 1
      = (if ("n2" : NodeId) ≠ "n1" then ConnAction.remoteEstablish "n2"
         else ConnAction.establishLocalAssigned,
         (CallbackQueue.add ⟨[]⟩ (ok "getSMTPConnection" "bob") 1).2) := by
  exact getSMTPConnection_ownership_routing "n1" "n2" "n3" "n2"
    ⟨[(DirKey.leader, "n1"), (ok "getSMTPConnection" "bob", "n2")], ["n2"]⟩
    ⟨[(DirKey.leader, "n1"), (ok "getSMTPConnection" "bob", "n3")], ["n2"]⟩
    ⟨[]⟩ ⟨[]⟩ "bob" 1 (by decide) (by decide) (by decide) (by decide) (by decide)
    (by decide) (by decide)

theorem lruGet_stable {β : Type} (c : LRUCache β) (k : String) (v : β)
    (h : (c.get k).1 = some v) : (((c.get k).2).get k).1 = some v := by
  unfold LRUCache.get at h ⊢
  cases hl : c.entries.lookup k with
  | none => rw [hl] at h; exact absurd h (by simp)
  | some w =>
    rw [hl] at h
    simp only at h
    cases h
    simp [List.lookup]

/-- C1 — two acquisition requests for the same owner arriving on the leader
while the first establish is still in flight create two transports, one on L
and one on P: the code does not hold the second caller on the single-flight
queue, so cluster-wide at-most-one-connection fails. -/
theorem concurrent_acquisitions_create_two :
    c1ConcurrentAcquisitions
      = (2, ConnAction.establishLocalAssigned, ConnAction.remoteEstablish "P") := by
  decide

/-- C2 — at the assignment branches of `getSMTPConnection` (line 88) and
`getSMTPCredentials` (line 256) the registration result is not checked: with
an operation already pending, `callbackQueue.add` reports non-proceed, yet
the step still dispatches a remote establish (respectively a remote token
generation), starting duplicate work. -/
theorem singleFlight_guard_ignored :
    (CallbackQueue.add ⟨[(ok "getSMTPConnection" "bob", [1])]⟩
        (ok "getSMTPConnection" "bob") 2).1 = false ∧
    (getSMTPConnectionStep "n1" ⟨[(DirKey.leader, "n1")], ["n1", "n2"]⟩
        ⟨[(ok "getSMTPConnection" "bob", [1])]⟩ "bob" false "n2" 2).1
      = ConnAction.remoteEstablish "n2" ∧
    (CallbackQueue.add ⟨[(ok "getSMTPCredentials" "bob", [1])]⟩
        (ok "getSMTPCredentials" "bob") 2).1 = false ∧
    (getSMTPCredentialsStep "n1" ⟨[(DirKey.leader, "n1")], ["n1", "n2"]⟩
        ⟨[(ok "getSMTPCredentials" "bob", [1])]⟩ credentialsCacheInit "bob" "gmail"
        none none "n2" 2).1
      = CredAction.remoteGenerate "n2" := by
  decide

/-- C6 — the static providers yahoo and aol invoke the continuation with the
picked `{user, pass}` object as the sole, first argument: the error slot is
truthy and the value slot is empty, so no caller observes a success;
an unsupported provider gets the Error object in the first slot; both
branches perform zero network calls. -/
theorem getSMTPCredentials_static_dispatch :
    getSMTPCredentialsStep "n1" ⟨[], []⟩ ⟨[]⟩ credentialsCacheInit "bob" "yahoo"
        (some "a") (some "b") "n1" 1
      = (CredAction.callNext [JsArg.credsObj (some "a") (some "b")], ⟨[]⟩, 0) ∧
    getSMTPCredentialsStep "n1" ⟨[], []⟩ ⟨[]⟩ credentialsCacheInit "bob" "aol"
        (some "a") (some "b") "n1" 1
      = (CredAction.callNext [JsArg.credsObj (some "a") (some "b")], ⟨[]⟩, 0) ∧
    getSMTPCredentialsStep "n1" ⟨[], []⟩ ⟨[]⟩ credentialsCacheInit "bob" "unknown"
        (some "a") (some "b") "n1" 1
      = (CredAction.callNext [JsArg.errorObj "passed provider is not supported"], ⟨[]⟩, 0) ∧
    jsTruthy (List.head? [JsArg.credsObj (some "a") (some "b")]) = true ∧
    List.head? (List.drop 1 [JsArg.credsObj (some "a") (some "b")])
      = (none : Option JsArg) := by
  decide

/-- C8 — establishing a connection on node n1 with yahoo credentials never
reaches the success postcondition: the credentials continuation receives the
picked credentials object in its error slot and fails, and even on a
success-shaped `(null, value)` invocation the responder reads `this.id` off
the `setImmediate` receiver, answering `undefined` rather than n1. -/
theorem establish_static_postcondition_fails :
    (establishStaticRun "n1" ⟨[], []⟩ ⟨⟨[]⟩, connectionCacheInit⟩ credentialsCacheInit
        "bob" "yahoo" (some "a") (some "b") 101 1).1
      = EstablishResult.failed (JsArg.credsObj (some "a") (some "b")) ∧
    receivedCredentials ThisCtx.immediate
        [JsArg.nullVal, JsArg.credsObj (some "a") (some "b")]
      = EstablishResult.succeeded (some (JsArg.credsObj (some "a") (some "b"))) none := by
  decide

/-- C9 — on the owning node the send is dispatched by member lookup on the
cached value, the wrapper `{it, cluster, key}` of line 119, which has no
`sendMail` member, so the local branch raises a TypeError (with or without a
registered prepare transform) instead of sending on the transport, while a
remote owner gets the request forwarded unchanged. -/
theorem sendMail_local_dispatch_type_error :
    sendMailLocalStep "n1" (some "n1")
        ⟨1000, [("bob", ⟨7, ok "getSMTPConnection" "bob"⟩)]⟩ "bob" none
        (fun _ => false) (Except.ok 0) 42
      = SendOutcome.typeErrorNoMethod "sendMail" ∧
    sendMailLocalStep "n1" (some "n1")
        ⟨1000, [("bob", ⟨7, ok "getSMTPConnection" "bob"⟩)]⟩ "bob" (some "prepXf")
        (fun m => m == "prepXf") (Except.ok 0) 42
      = SendOutcome.typeErrorNoMethod "sendMail" ∧
    sendMailLocalStep "n1" (some "n2")
        ⟨1000, [("bob", ⟨7, ok "getSMTPConnection" "bob"⟩)]⟩ "bob" none
        (fun _ => false) (Except.ok 0) 42
      = SendOutcome.forwarded (some "n2") "bob" 42 ∧
    EvConn.hasMember ⟨7, ok "getSMTPConnection" "bob"⟩ "sendMail" = false := by
  refine ⟨rfl, rfl, rfl, rfl⟩

/-- C10 — after `init`, four of the five remote-call registry entries are
bound to defined module functions, but the entry named
`generateOAuthCredentials` is bound to the value of
`exports.generateGmailCredentials`, a property the module never defines:
that operation is registered as `undefined`. -/
theorem initRegistry_generate_binding_undefined :
    List.lookup "generateOAuthCredentials" initRegistry = some none ∧
    List.lookup "getSMTPConnection" initRegistry
      = some (some ExportedFn.getSMTPConnection) ∧
    List.lookup "establishSMTPConnection" initRegistry
      = some (some ExportedFn.establishSMTPConnection) ∧
    List.lookup "getSMTPCredentials" initRegistry
      = some (some ExportedFn.getSMTPCredentials) ∧
    List.lookup "sendMail" initRegistry = some (some ExportedFn.sendMail) := by
  decide

theorem cluster_get_set_some_self (c : Cluster) (k : DirKey) (n : NodeId) :
    Cluster.get (Cluster.set c k (some n)) k = some n := by
  simp [Cluster.get, Cluster.set, dirLookup]

/-- C4 — for a cached credential entry holding a token with a set, nonzero
generation timestamp, a request whose age is under the 5-minute window
returns the cached token unchanged with zero refresh calls, and a request
whose age exceeds the window performs exactly one refresh call and returns
its outcome (the new token wrapped as `{user, xoauth2}`, or the refresh
error). -/
theorem generateOAuth_token_freshness
    (selfId : NodeId) (cluster : Cluster) (q : CallbackQueue)
    (cache : LRUCache EvCred) (u tok : String) (now1 now2 t : Int)
    (gid cb : Nat) (r : Except String String) (e : EvCred)
    (hq : (CallbackQueue.add q (ok "generateOAuthCredentials" u) cb).1 = true)
    (hc : (cache.get u).1 = some e)
    (htok : e.it.token = some tok) (ht : e.it.timer = some t) (ht0 : t ≠ 0)
    (hfresh : now1 - t < 300000) (hstale : 300000 < now2 - t) :
    (generateOAuthCredentialsStep selfId cluster q cache u now1 gid cb r).result
        = some (Except.ok (u, tok)) ∧
    (generateOAuthCredentialsStep selfId cluster q cache u now1 gid cb r).refreshCalls = 0 ∧
    (generateOAuthCredentialsStep selfId cluster q cache u now2 gid cb r).refreshCalls = 1 ∧
    (generateOAuthCredentialsStep selfId cluster q cache u now2 gid cb r).result
        = some (Except.map (fun tk => (u, tk)) r) := by
  have hf1 : tokenFresh e.it now1 = true := by
    simp [tokenFresh, htok, ht, jsFalsyInt, timerVal]
    omega
  have hf2 : tokenFresh e.it now2 = false := by
    simp [tokenFresh, htok, ht, jsFalsyInt, timerVal, ht0]
    omega
  refine ⟨?_, ?_, ?_, ?_⟩
  · simp [generateOAuthCredentialsStep, hq, hc, generateOAuthFinish, hf1, htok]
  · simp [generateOAuthCredentialsStep, hq, hc, generateOAuthFinish, hf1]
  · cases r with
    | error msg => simp [generateOAuthCredentialsStep, hq, hc, generateOAuthFinish, hf2]
    | ok tk => simp [generateOAuthCredentialsStep, hq, hc, generateOAuthFinish, hf2]
  · cases r with
    | error msg =>
      simp [generateOAuthCredentialsStep, hq, hc, generateOAuthFinish, hf2, Except.map]
    | ok tk =>
      simp [generateOAuthCredentialsStep, hq, hc, generateOAuthFinish, hf2, Except.map]

/-- Witness for C4: a token generated at t = 200000 and requested at
now = 400000 (age 200s) is returned unchanged without refresh; requested at
now = 600000 (age 400s) it triggers exactly one refresh whose new token is
returned. -/
theorem generateOAuth_token_freshness_witness :
    ((CallbackQueue.add ⟨[]⟩ (ok "generateOAuthCredentials" "bob") 1).1 = true ∧
     ((⟨10000, [("bob", ⟨⟨7, some "tk", some 200000⟩,
         ok "generateOAuthCredentials" "bob"⟩)]⟩ : LRUCache EvCred).get "bob").1
       = some ⟨⟨7, some "tk", some 200000⟩, ok "generateOAuthCredentials" "bob"⟩ ∧
     ((400000 : Int) - 200000 < 300000) ∧ ((300000 : Int) < 600000 - 200000)) ∧
    ((generateOAuthCredentialsStep "n1" ⟨[], []⟩ ⟨[]⟩
        ⟨10000, [("bob", ⟨⟨7, some "tk", some 200000⟩,
          ok "generateOAuthCredentials" "bob"⟩)]⟩ "bob" 400000 9 1
        (Except.ok "newtok")).result = some (Except.ok ("bob", "tk")) ∧
     (generateOAuthCredentialsStep "n1" ⟨[], []⟩ ⟨[]⟩
        ⟨10000, [("bob", ⟨⟨7, some "tk", some 200000⟩,
          ok "generateOAuthCredentials" "bob"⟩)]⟩ "bob" 400000 9 1
        (Except.ok "newtok")).refreshCalls = 0 ∧
     (generateOAuthCredentialsStep "n1" ⟨[], []⟩ ⟨[]⟩
        ⟨10000, [("bob", ⟨⟨7, some "tk", some 200000⟩,
          ok "generateOAuthCredentials" "bob"⟩)]⟩ "bob" 600000 9 1
        (Except.ok "newtok")).refreshCalls = 1 ∧
     (generateOAuthCredentialsStep "n1" ⟨[], []⟩ ⟨[]⟩
        ⟨10000, [("bob", ⟨⟨7, some "tk", some 200000⟩,
          ok "generateOAuthCredentials" "bob"⟩)]⟩ "bob" 600000 9 1
        (Except.ok "newtok")).result
       = some (Except.map (fun tk => ("bob", tk)) (Except.ok "newtok"))) :=
  ⟨⟨by decide, by decide, by decide, by decide⟩,
   generateOAuth_token_freshness "n1" ⟨[], []⟩ ⟨[]⟩
     ⟨10000, [("bob", ⟨⟨7, some "tk", some 200000⟩,
       ok "generateOAuthCredentials" "bob"⟩)]⟩ "bob" "tk" 400000 600000 200000 9 1
     (Except.ok "newtok") ⟨⟨7, some "tk", some 200000⟩, ok "generateOAuthCredentials" "bob"⟩
     (by decide) (by decide) (by decide) (by decide) (by decide) (by decide) (by decide)⟩

/-- C7 counterexample — a failing token refresh still publishes the
directory pointer: starting from an empty directory, the failing
`generateOAuthCredentials` run reports the refresh error yet leaves the
operation key pointing at n1, contradicting the claim that no pointer is
published on failure. -/
theorem generateOAuth_failure_publishes_pointer :
    (generateOAuthCredentialsStep "n1" ⟨[], []⟩ ⟨[]⟩
        ⟨10000, [("bob", ⟨⟨7, some "tk", some 100⟩,
          ok "generateOAuthCredentials" "bob"⟩)]⟩ "bob" 1000000 9 1
        (Except.error "refresh failed")).result
      = some (Except.error "refresh failed") ∧
    Cluster.get (generateOAuthCredentialsStep "n1" ⟨[], []⟩ ⟨[]⟩
        ⟨10000, [("bob", ⟨⟨7, some "tk", some 100⟩,
          ok "generateOAuthCredentials" "bob"⟩)]⟩ "bob" 1000000 9 1
        (Except.error "refresh failed")).cluster (ok "generateOAuthCredentials" "bob")
      = some "n1" := by
  exact ⟨rfl, rfl⟩

/-- C7 (amended) — on the connection path an error is propagated untouched
and the pointer is published only on success; on the token path a refresh
failure propagates the error to the resolver, each registered single-flight
waiter receives that identical error, and the cached token state is left
unchanged — but the directory pointer for the operation key has already been
published to this node unconditionally and is not rolled back. -/
theorem failure_propagation_amended
    (cl2 cluster : Cluster) (k : DirKey) (msg : String) (n selfId : NodeId)
    (wq q : CallbackQueue) (cache : LRUCache EvCred) (u tok : String)
    (now t : Int) (gid cb : Nat) (e : EvCred)
    (hq : (CallbackQueue.add q (ok "generateOAuthCredentials" u) cb).1 = true)
    (hc : (cache.get u).1 = some e)
    (htok : e.it.token = some tok) (ht : e.it.timer = some t) (ht0 : t ≠ 0)
    (hstale : 300000 < now - t) :
    connectionCallback cl2 k (Except.error msg) = (cl2, Except.error msg) ∧
    connectionCallback cl2 k (Except.ok n) = (Cluster.set cl2 k (some n), Except.ok n) ∧
    (generateOAuthCredentialsStep selfId cluster q cache u now gid cb
        (Except.error msg)).result = some (Except.error msg) ∧
    ((generateOAuthCredentialsStep selfId cluster q cache u now gid cb
        (Except.error msg)).cache.get u).1 = some e ∧
    Cluster.get (generateOAuthCredentialsStep selfId cluster q cache u now gid cb
        (Except.error msg)).cluster (ok "generateOAuthCredentials" u) = some selfId ∧
    (∀ p ∈ (CallbackQueue.resolveWith wq (ok "generateOAuthCredentials" u)
        (Except.error msg : Except String NodeId)).1, p.2 = Except.error msg) := by
  have hf : tokenFresh e.it now = false := by
    simp [tokenFresh, htok, ht, jsFalsyInt, timerVal, ht0]
    omega
  refine ⟨rfl, rfl, ?_, ?_, ?_, ?_⟩
  · simp [generateOAuthCredentialsStep, hq, hc, generateOAuthFinish, hf]
  · simp only [generateOAuthCredentialsStep, hq, hc, generateOAuthFinish, hf]
    simp only [if_true]
    exact lruGet_stable cache u e hc
  · simp [generateOAuthCredentialsStep, hq, hc, generateOAuthFinish, hf,
      cluster_get_set_some_self]
  · intro p hp
    simp only [CallbackQueue.resolveWith] at hp
    rcases List.mem_map.mp hp with ⟨w, hw, hpe⟩
    rw [← hpe]

/-- Witness for the amended C7: concrete error propagation, success-only
publication on the connection path, and the already-published pointer with
unchanged token state on a concrete failing refresh with two queued
waiters. -/
theorem failure_propagation_amended_witness :
    (((CallbackQueue.add ⟨[]⟩ (ok "generateOAuthCredentials" "bob") 1).1 = true) ∧
     (((⟨10000, [("bob", ⟨⟨7, some "tk", some 100⟩,
         ok "generateOAuthCredentials" "bob"⟩)]⟩ : LRUCache EvCred).get "bob").1
       = some ⟨⟨7, some "tk", some 100⟩, ok "generateOAuthCredentials" "bob"⟩) ∧
     ((300000 : Int) < 1000000 - 100)) ∧
    (connectionCallback ⟨[], []⟩ (ok "getSMTPConnection" "bob") (Except.error "boom")
      = (⟨[], []⟩, Except.error "boom") ∧
    connectionCallback ⟨[], []⟩ (ok "getSMTPConnection" "bob") (Except.ok "n2")
      = (Cluster.set ⟨[], []⟩ (ok "getSMTPConnection" "bob") (some "n2"), Except.ok "n2") ∧
    (generateOAuthCredentialsStep "n1" ⟨[], []⟩ ⟨[]⟩
        ⟨10000, [("bob", ⟨⟨7, some "tk", some 100⟩,
          ok "generateOAuthCredentials" "bob"⟩)]⟩ "bob" 1000000 9 1
        (Except.error "boom")).result = some (Except.error "boom") ∧
    ((generateOAuthCredentialsStep "n1" ⟨[], []⟩ ⟨[]⟩
        ⟨10000, [("bob", ⟨⟨7, some "tk", some 100⟩,
          ok "generateOAuthCredentials" "bob"⟩)]⟩ "bob" 1000000 9 1
        (Except.error "boom")).cache.get "bob").1
      = some ⟨⟨7, some "tk", some 100⟩, ok "generateOAuthCredentials" "bob"⟩ ∧
    Cluster.get (generateOAuthCredentialsStep "n1" ⟨[], []⟩ ⟨[]⟩
        ⟨10000, [("bob", ⟨⟨7, some "tk", some 100⟩,
          ok "generateOAuthCredentials" "bob"⟩)]⟩ "bob" 1000000 9 1
        (Except.error "boom")).cluster (ok "generateOAuthCredentials" "bob")
      = some "n1" ∧
    (∀ p ∈ (CallbackQueue.resolveWith
        ⟨[(ok "generateOAuthCredentials" "bob", [3, 4])]⟩
        (ok "generateOAuthCredentials" "bob")
        (Except.error "boom" : Except String NodeId)).1, p.2 = Except.error "boom")) :=
  ⟨⟨by decide, by decide, by decide⟩,
   failure_propagation_amended ⟨[], []⟩ ⟨[], []⟩ (ok "getSMTPConnection" "bob") "boom"
     "n2" "n1" ⟨[(ok "generateOAuthCredentials" "bob", [3, 4])]⟩ ⟨[]⟩
     ⟨10000, [("bob", ⟨⟨7, some "tk", some 100⟩, ok "generateOAuthCredentials" "bob"⟩)]⟩
     "bob" "tk" 1000000 100 9 1
     ⟨⟨7, some "tk", some 100⟩, ok "generateOAuthCredentials" "bob"⟩
     (by decide) (by decide) (by decide) (by decide) (by decide) (by decide)⟩

end SkiffSMTP
